import Mathlib

/-!
Verification of the LumixEngine immediate-mode rendering backend
(`src/graphics/renderer.cpp`).

The renderer is embedded shallowly: the renderer's member state
(`RendererImpl`'s fields) becomes an explicit `RState` record, every
operation becomes a pure function `RState → ... → RState × List GLCall`
returning the driver calls it issues (a mock of the OpenGL driver), and the
driver-side context state is recovered by folding a small-step interpreter
`GLState.applyCall` over the emitted trace.  Collaborator code that lives
outside `renderer.cpp` (Shader internals, Material::apply, Geometry buffer
binding, the degrees-to-radians helper) is modelled from the specification,
as marked on each definition.
-/

namespace LumixSpec

/-- A 4×4 matrix with the engine's field naming (`m11` … `m44`),
generic in the scalar type so the same shape serves the real-valued
projection math and the rational-valued uniform payloads. -/
structure Matrix4 (α : Type) where
  m11 : α
  m12 : α
  m13 : α
  m14 : α
  m21 : α
  m22 : α
  m23 : α
  m24 : α
  m31 : α
  m32 : α
  m33 : α
  m34 : α
  m41 : α
  m42 : α
  m43 : α
  m44 : α
deriving DecidableEq, Repr

/-- `Matrix::IDENTITY`. -/
def Matrix4.identity {α : Type} [Zero α] [One α] : Matrix4 α :=
  ⟨1, 0, 0, 0, 0, 1, 0, 0, 0, 0, 1, 0, 0, 0, 0, 1⟩

/-- Modelled from the spec (§4.2): the Shader abstraction (graphics/shader.h,
not under src/).  `programOf` is the compiled-program table indexed by
(combination, pass); `currentCombination`/`currentPass` are set by
`setCurrentCombination`; `uniformLoc` is the name+hash → location cache
(`getUniformLocation`, absent = negative); `fixedLoc` is the table of
well-known fixed uniform locations (`getFixedCachedUniformLocation`).
`ptr` stands for the object's address (C++ identity). -/
structure Shader where
  ptr : Nat
  programOf : Nat → Nat → Nat
  currentCombination : Nat
  currentPass : Nat
  uniformLoc : String → Nat → Int
  fixedLoc : Nat → Int

/-- `Shader::getProgramId()`: the program selected by the current
(combination, pass) pair. -/
def Shader.getProgramId (s : Shader) : Nat :=
  s.programOf s.currentCombination s.currentPass

/-- Modelled from the spec (§4.2): `Shader::setCurrentCombination`. -/
def Shader.setCurrentCombination (s : Shader) (combination pass : Nat) : Shader :=
  { s with currentCombination := combination, currentPass := pass }

/-- Modelled from the spec (§3): a Material associates a Shader with fixed
parameters; `combination` is the shader-combination key Material::apply
selects.  `id` stands for the object's identity. -/
structure Material where
  id : Nat
  shader : Shader
  combination : Nat

/-- Modelled from the spec (§3): Geometry is a GPU buffer pair
(vertex + index buffer).  `ptr` stands for the object's address. -/
structure Geometry where
  ptr : Nat
  vertexBuffer : Nat
  indexBuffer : Nat

/-- Modelled from the spec (§3): a Mesh is a sub-range of a Model's geometry
with a Material, an index offset/count, an attribute-array offset and a
vertex-definition descriptor (identified here by `vertexDefId`).
`ptr` stands for the object's address (the code compares mesh pointers). -/
structure Mesh where
  ptr : Nat
  material : Material
  attributeArrayOffset : Int
  indicesOffset : Int
  indexCount : Int
  vertexDefId : Nat

/-- Modelled from the spec (§6): the external render device; `id` identifies
it in the emitted trace. -/
structure Device where
  id : Nat

/-- Modelled from the spec (§3): a Model owns a Geometry and a list of
Meshes; `ready` is the asynchronous-load readiness flag (`isReady()`). -/
structure Model where
  ready : Bool
  geometry : Geometry
  meshes : List Mesh

/-- The payload of a uniform write, covering the overload set
{int, float, vec3, vec4, mat4, mat4-array}.  Scalars are rationals:
the renderer never computes with them, it passes them through. -/
inductive UniformValue where
  | int (v : Int)
  | float (v : Rat)
  | vec3 (x y z : Rat)
  | vec4 (x y z w : Rat)
  | matrix (m : Matrix4 Rat)
  | matrixArray (ms : List (Matrix4 Rat)) (count : Int)
deriving DecidableEq, Repr

/-- One observable driver/device call (the mock of the GL driver plus the
abstract collaborator calls the renderer makes). -/
inductive GLCall where
  | useProgram (id : Nat)
  | uniform1i (loc : Int) (v : Int)
  | uniform1f (loc : Int) (v : Rat)
  | uniform3f (loc : Int) (x y z : Rat)
  | uniform4f (loc : Int) (x y z w : Rat)
  | uniformMatrix4fv (loc : Int) (count : Int) (ms : List (Matrix4 Rat))
  | bindArrayBuffer (id : Nat)
  | bindElementArrayBuffer (id : Nat)
  | activeTexture (unit : Nat)
  | bindTexture (id : Nat)
  | vtxDefBegin (vertexDefId shaderPtr : Nat) (offset : Int)
  | vtxDefEnd (vertexDefId shaderPtr : Nat)
  | drawElements (indicesOffset indexCount : Int)
  | enableDepthTest
  | disableBlend
  | setCombination (shaderPtr combination pass : Nat)
  | applyMaterial (materialId : Nat)
  | deviceBeginFrame (devId : Nat)
  | pipelineRenderCall (devId : Nat)
  | deviceEndFrame (devId : Nat)
deriving DecidableEq, Repr

/-- The driver-side context state the renderer's calls affect: current
program, the two buffer binding points, the active texture unit, the texture
bound on each unit, and which mesh's vertex layout is currently set up. -/
structure GLState where
  currentProgram : Nat
  arrayBuffer : Nat
  elementArrayBuffer : Nat
  activeTexture : Nat
  textures : Nat → Nat
  boundVertexLayout : Option Nat

/-- Small-step driver semantics: how one call changes the context state.
Uniform writes, draws and device calls do not change the tracked state. -/
def GLState.applyCall (g : GLState) : GLCall → GLState
  | .useProgram id => { g with currentProgram := id }
  | .bindArrayBuffer id => { g with arrayBuffer := id }
  | .bindElementArrayBuffer id => { g with elementArrayBuffer := id }
  | .activeTexture u => { g with activeTexture := u }
  | .bindTexture id => { g with textures := Function.update g.textures g.activeTexture id }
  | .vtxDefBegin vid _ _ => { g with boundVertexLayout := some vid }
  | .vtxDefEnd _ _ => { g with boundVertexLayout := none }
  | _ => g

/-- Fold a whole trace of driver calls over a context state. -/
def applyTrace (g : GLState) (t : List GLCall) : GLState :=
  t.foldl GLState.applyCall g

/-- The renderer's member state (`RendererImpl`'s fields relevant to
rendering): cached current program id, the geometry/mesh binding memo, the
current pass hash, the render device pointer, the editor-wireframe flag,
the attribute-name registry, and the view/projection matrices. -/
structure RState where
  lastProgramId : Nat
  lastBindGeometry : Option Geometry
  lastBindMesh : Option Mesh
  currentPassHash : Nat
  renderDevice : Option Device
  isEditorWireframe : Bool
  attributeNames : List String
  viewMatrix : Matrix4 Rat
  projectionMatrix : Matrix4 Rat

/-- Stands for `crc32("MAIN")`; its concrete value is irrelevant here. -/
def MAIN_PASS_HASH : Nat := 0x6a9e9f1c

/-- `RendererImpl::RendererImpl` (lines 44–67).  The constructor initialises
the pass hash, both memo pointers, the cached program id and the wireframe
flag — but NOT `m_render_device`, `m_view_matrix` or `m_projection_matrix`;
those fields keep indeterminate values, passed here as the `uninit*`
parameters. -/
def initState (uninitRenderDevice : Option Device)
    (uninitView uninitProjection : Matrix4 Rat) : RState :=
  { lastProgramId := 0xffffFFFF
    lastBindGeometry := none
    lastBindMesh := none
    currentPassHash := MAIN_PASS_HASH
    renderDevice := uninitRenderDevice
    isEditorWireframe := false
    attributeNames := []
    viewMatrix := uninitView
    projectionMatrix := uninitProjection }

/-- The driver write a `setUniform` overload issues once the location is
resolved (lines 208, 224, 240, 257, 273 and the vec4 fixed overload). -/
def writeCall (loc : Int) : UniformValue → GLCall
  | .int v => .uniform1i loc v
  | .float v => .uniform1f loc v
  | .vec3 x y z => .uniform3f loc x y z
  | .vec4 x y z w => .uniform4f loc x y z w
  | .matrix m => .uniformMatrix4fv loc 1 [m]
  | .matrixArray ms count => .uniformMatrix4fv loc count ms

/-- `RendererImpl::setUniform` (lines 197–275).  The five overloads share
this exact structure and differ only in the final driver write, so they are
embedded as one function over the payload variant: resolve the location via
the shader's cache; negative location is a silent no-op; otherwise bind the
shader's program first when it differs from the cached current program. -/
def setUniform (r : RState) (shader : Shader) (name : String) (nameHash : Nat)
    (v : UniformValue) : RState × List GLCall :=
  let loc := shader.uniformLoc name nameHash
  if 0 ≤ loc then
    if r.lastProgramId ≠ shader.getProgramId then
      ({ r with lastProgramId := shader.getProgramId },
        [.useProgram shader.getProgramId, writeCall loc v])
    else
      (r, [writeCall loc v])
  else
    (r, [])

/-- `setFixedCachedUniform` (lines 553–630).  The five free-function
overloads share this exact structure and differ only in the final driver
write; the location comes from the shader's fixed-uniform table. -/
def setFixedCachedUniform (r : RState) (shader : Shader) (name : Nat)
    (v : UniformValue) : RState × List GLCall :=
  let loc := shader.fixedLoc name
  if 0 ≤ loc then
    if r.lastProgramId ≠ shader.getProgramId then
      ({ r with lastProgramId := shader.getProgramId },
        [.useProgram shader.getProgramId, writeCall loc v])
    else
      (r, [writeCall loc v])
  else
    (r, [])

/-- Modelled from the spec (§4.2): the fixed-uniform enum indices
(`Shader::FixedCachedUniforms`); only distinctness matters. -/
def VIEW_MATRIX : Nat := 0

/-- Modelled from the spec (§4.2): the `PROJECTION_MATRIX` enum index. -/
def PROJECTION_MATRIX : Nat := 1

/-- Modelled from the spec (§4.2): the `WORLD_MATRIX` enum index. -/
def WORLD_MATRIX : Nat := 2

/-- `RendererImpl::applyShader` (lines 297–305): select the (combination,
current pass) program, cache and bind it, then push the view and projection
fixed uniforms from core state.  Returns the mutated shader as well (the
C++ mutates the shader object in place). -/
def applyShader (r : RState) (shader : Shader) (combination : Nat) :
    RState × Shader × List GLCall :=
  let sh := shader.setCurrentCombination combination r.currentPassHash
  let id := sh.getProgramId
  let r1 := { r with lastProgramId := id }
  let (r2, t1) := setFixedCachedUniform r1 sh VIEW_MATRIX (.matrix r.viewMatrix)
  let (r3, t2) := setFixedCachedUniform r2 sh PROJECTION_MATRIX (.matrix r.projectionMatrix)
  (r3, sh,
    [.setCombination shader.ptr combination r.currentPassHash, .useProgram id] ++ t1 ++ t2)

/-- The vertex-layout teardown `mesh->getVertexDefinition().end(*shader)`
issued against a memoised mesh, when one is present. -/
def meshTeardown : Option Mesh → List GLCall
  | some m => [.vtxDefEnd m.vertexDefId m.material.shader.ptr]
  | none => []

/-- `bindGeometry` (lines 633–648): no-op when the mesh pointer equals the
memoised one; otherwise tear down the previous mesh's layout against the
previous mesh's own shader, bind the new geometry's buffers, update both
memo fields, and set up the new mesh's layout against its own shader at its
attribute-array offset. -/
def bindGeometry (r : RState) (geometry : Geometry) (mesh : Mesh) :
    RState × List GLCall :=
  if r.lastBindMesh.map Mesh.ptr ≠ some mesh.ptr then
    ({ r with lastBindGeometry := some geometry, lastBindMesh := some mesh },
      meshTeardown r.lastBindMesh ++
        [.bindArrayBuffer geometry.vertexBuffer,
         .bindElementArrayBuffer geometry.indexBuffer,
         .vtxDefBegin mesh.vertexDefId mesh.material.shader.ptr mesh.attributeArrayOffset])
  else
    (r, [])

/-- The per-unit texture unbind loop of `cleanup` (lines 188–192). -/
def texUnbindBlock (n : Nat) : List GLCall :=
  (List.range n).flatMap fun i => [.activeTexture i, .bindTexture 0]

/-- `RendererImpl::cleanup` (lines 177–194): tear down the memoised mesh's
vertex layout when the geometry memo is set (the source checks only
`m_last_bind_geometry` and then dereferences `m_last_bind_geometry_mesh`;
the together-null invariant makes that safe), clear both memo fields, unbind
both buffers, unbind the program, unbind all 16 texture units and reset the
active unit to 0.  Note: `m_last_program_id` is NOT touched. -/
def cleanup (r : RState) : RState × List GLCall :=
  ({ r with lastBindGeometry := none, lastBindMesh := none },
    (if r.lastBindGeometry.isSome then meshTeardown r.lastBindMesh else []) ++
      [.bindArrayBuffer 0, .bindElementArrayBuffer 0, .useProgram 0] ++
      texUnbindBlock 16 ++ [.activeTexture 0])

/-- `RendererImpl::render` (lines 156–165): enable depth test, disable
blending, run the device's pipeline (an external collaborator, recorded as
an opaque trace event), then `cleanup`. -/
def render (r : RState) (device : Device) : RState × List GLCall :=
  let (r1, t) := cleanup r
  (r1, [.enableDepthTest, .disableBlend, .pipelineRenderCall device.id] ++ t)

/-- `RendererImpl::renderGame` (lines 145–154): when the device field holds
a device, bracket `render` with the device's begin/end frame calls. -/
def renderGame (r : RState) : RState × List GLCall :=
  match r.renderDevice with
  | some device =>
      let (r1, t) := render r device
      (r1, [.deviceBeginFrame device.id] ++ t ++ [.deviceEndFrame device.id])
  | none => (r, [])

/-- `RendererImpl::setRenderDevice` (lines 140–143). -/
def setRenderDevice (r : RState) (device : Device) : RState :=
  { r with renderDevice := some device }

/-- `RendererImpl::setPass` (lines 284–287). -/
def setPass (r : RState) (passHash : Nat) : RState :=
  { r with currentPassHash := passHash }

/-- `RendererImpl::setViewMatrix` (lines 114–117). -/
def setViewMatrix (r : RState) (m : Matrix4 Rat) : RState :=
  { r with viewMatrix := m }

/-- `RendererImpl::setProjectionMatrix` (lines 119–122). -/
def setProjectionMatrix (r : RState) (m : Matrix4 Rat) : RState :=
  { r with projectionMatrix := m }

/-- `RendererImpl::setEditorWireframe` (lines 444–447). -/
def setEditorWireframe (r : RState) (b : Bool) : RState :=
  { r with isEditorWireframe := b }

/-- Modelled from the spec (§4.1, §4.9): `Material::apply`
(graphics/material.cpp, not under src/) applies its shader, i.e. invokes
`applyShader` with the material's shader and combination; recorded in the
trace with an `applyMaterial` marker.  Texture and render-state side
effects of the material are outside this model. -/
def materialApply (r : RState) (mat : Material) : RState × Shader × List GLCall :=
  let (r1, sh, t) := applyShader r mat.shader mat.combination
  (r1, sh, .applyMaterial mat.id :: t)

/-- The body of `renderModel`'s per-mesh loop iteration (lines 431–439):
apply the mesh's material, push the world-matrix fixed uniform from the
given transform using the mesh's (now combination-selected) shader, bind
its geometry, and issue one indexed draw for its index range. -/
def renderModelMesh (geometry : Geometry) (transform : Matrix4 Rat)
    (r : RState) (mesh : Mesh) : RState × List GLCall :=
  let (r1, sh, t1) := materialApply r mesh.material
  let (r2, t2) := setFixedCachedUniform r1 sh WORLD_MATRIX (.matrix transform)
  let (r3, t3) := bindGeometry r2 geometry mesh
  (r3, t1 ++ t2 ++ t3 ++ [.drawElements mesh.indicesOffset mesh.indexCount])

/-- `renderModel`'s loop over the model's meshes in declaration order. -/
def renderModelGo (geometry : Geometry) (transform : Matrix4 Rat) :
    RState → List Mesh → RState × List GLCall
  | r, [] => (r, [])
  | r, m :: ms =>
      let (r1, t1) := renderModelMesh geometry transform r m
      let (r2, t2) := renderModelGo geometry transform r1 ms
      (r2, t1 ++ t2)

/-- `RendererImpl::renderModel` (lines 424–441): return immediately when the
model is not ready, otherwise run the per-mesh loop.  The pipeline argument
is passed to `Material::apply` in the source and is unused by this model. -/
def renderModel (r : RState) (model : Model) (transform : Matrix4 Rat)
    (pipeline : Nat) : RState × List GLCall :=
  if model.ready then renderModelGo model.geometry transform r model.meshes
  else (r, [])

/-- The linear scan of `getAttributeNameIndex`'s loop (lines 458–464):
index of the first exact match, if any. -/
def lookupIdx : List String → String → Option Nat
  | [], _ => none
  | x :: xs, name => if x = name then some 0 else (lookupIdx xs name).map (· + 1)

/-- `RendererImpl::getAttributeNameIndex` (lines 456–467): linear-search the
registry for an exact match and return its index; otherwise append the name
and return the new last index. -/
def getAttributeNameIndex (r : RState) (name : String) : RState × Nat :=
  match lookupIdx r.attributeNames name with
  | some i => (r, i)
  | none =>
      ({ r with attributeNames := r.attributeNames ++ [name] },
        r.attributeNames.length)

/-- Number of program binds (`glUseProgram` calls) in a trace. -/
def countUseProgram (t : List GLCall) : Nat :=
  t.countP fun c => match c with | .useProgram _ => true | _ => false

/-- A sequence of `setUniform` calls, folded left to right, with the traces
concatenated in call order. -/
def runSetUniforms : RState → List (Shader × String × Nat × UniformValue) →
    RState × List GLCall
  | r, [] => (r, [])
  | r, (sh, nm, nh, v) :: rest =>
      let (r1, t1) := setUniform r sh nm nh v
      let (r2, t2) := runSetUniforms r1 rest
      (r2, t1 ++ t2)

/-- The indexed draws (`glDrawElements` offset/count pairs) of a trace. -/
def drawsOf (t : List GLCall) : List (Int × Int) :=
  t.filterMap fun c => match c with | .drawElements o n => some (o, n) | _ => none

/-- The material applications of a trace. -/
def materialAppliesOf (t : List GLCall) : List Nat :=
  t.filterMap fun c => match c with | .applyMaterial i => some i | _ => none

/-- The together-null invariant on the geometry/mesh binding memo. -/
def memoOk (r : RState) : Prop :=
  r.lastBindGeometry.isSome = r.lastBindMesh.isSome

instance (r : RState) : Decidable (memoOk r) := by
  unfold memoOk; infer_instance

/- Concrete example objects used by the witness theorems. -/

/-- A shader whose every program is 5 and whose locations all resolve. -/
def exShader : Shader :=
  { ptr := 1, programOf := fun _ _ => 5, currentCombination := 0,
    currentPass := 0, uniformLoc := fun _ _ => 2, fixedLoc := fun _ => 3 }

/-- A shader none of whose uniform locations resolve. -/
def exShaderNoLoc : Shader :=
  { ptr := 2, programOf := fun _ _ => 5, currentCombination := 0,
    currentPass := 0, uniformLoc := fun _ _ => -1, fixedLoc := fun _ => -1 }

/-- A concrete rational matrix. -/
def exMatQ : Matrix4 Rat := Matrix4.identity

/-- A concrete geometry. -/
def exGeometry : Geometry := ⟨10, 11, 12⟩

/-- A concrete material using `exShader`. -/
def exMaterial : Material := ⟨20, exShader, 0⟩

/-- A concrete mesh. -/
def exMesh0 : Mesh := ⟨30, exMaterial, 0, 0, 6, 40⟩

/-- A second concrete mesh, at a different address. -/
def exMesh1 : Mesh := ⟨31, exMaterial, 16, 6, 9, 41⟩

/-- A concrete two-mesh ready model. -/
def exModel : Model := ⟨true, exGeometry, [exMesh0, exMesh1]⟩

/-- A freshly constructed renderer state (device field happens to be null). -/
def exState : RState := initState none exMatQ exMatQ

/-- A driver state coherent with `exState`'s program cache. -/
def exGL : GLState := ⟨0xffffFFFF, 0, 0, 0, fun _ => 0, none⟩

/-- A renderer state whose cached program id is 5. -/
def exState5 : RState := { exState with lastProgramId := 5 }

/-- A driver state coherent with `exState5` (program 5 is current). -/
def exGL5 : GLState := { exGL with currentProgram := 5 }

/-- A renderer state that has `exMesh0`/`exGeometry` memoised as bound. -/
def exStateBound : RState :=
  { exState with lastBindGeometry := some exGeometry, lastBindMesh := some exMesh0 }

/-- Modelled from the spec (§4.4): `Math::degreesToRadians`
(core/math_utils.h, not under src/) — conversion of degrees to radians
("fov/2 in radians"). -/
noncomputable def degreesToRadians (x : Real) : Real := x * (Real.pi / 180)

/-- `Renderer::getProjectionMatrix` (lines 503–513), over the reals: start
from the identity matrix, compute `f = 1/tanf(degreesToRadians(fov)*0.5f)`,
and overwrite the six perspective entries. -/
noncomputable def getProjectionMatrix
    (fov width height nearPlane farPlane : Real) : Matrix4 Real :=
  let f : Real := 1 / Real.tan (degreesToRadians fov * 0.5)
  { Matrix4.identity with
    m11 := f / (width / height)
    m22 := f
    m33 := (farPlane + nearPlane) / (nearPlane - farPlane)
    m44 := 0
    m43 := (2 * farPlane * nearPlane) / (nearPlane - farPlane)
    m34 := -1 }

/-- The projection matrix exactly as the spec's words give it (§4.4):
`f = 1/tan(fov/2 in radians)`, `m11 = f/(width/height)`, `m22 = f`,
`m33 = (far+near)/(near-far)`, `m44 = 0`, `m43 = 2*far*near/(near-far)`,
`m34 = -1`, identity elsewhere. -/
noncomputable def specProjectionMatrix
    (fov width height nearPlane farPlane : Real) : Matrix4 Real :=
  let f : Real := 1 / Real.tan (degreesToRadians fov / 2)
  { Matrix4.identity with
    m11 := f / (width / height)
    m22 := f
    m33 := (farPlane + nearPlane) / (nearPlane - farPlane)
    m44 := 0
    m43 := (2 * farPlane * nearPlane) / (nearPlane - farPlane)
    m34 := -1 }

/- Helper lemmas. -/

theorem applyTrace_append (g : GLState) (a b : List GLCall) :
    applyTrace g (a ++ b) = applyTrace (applyTrace g a) b :=
  List.foldl_append ..

theorem lookupIdx_eq_none (l : List String) (n : String) :
    lookupIdx l n = none ↔ n ∉ l := by
  induction l with
  | nil => simp [lookupIdx]
  | cons x xs ih =>
      by_cases hx : x = n
      · subst hx; simp [lookupIdx]
      · simp [lookupIdx, hx, Option.map_eq_none', ih, Ne.symm hx]

theorem lookupIdx_first (l : List String) (n : String) (i : Nat)
    (h : lookupIdx l n = some i) :
    l[i]? = some n ∧ ∀ j, j < i → l[j]? ≠ some n := by
  induction l generalizing i with
  | nil => simp [lookupIdx] at h
  | cons x xs ih =>
      by_cases hx : x = n
      · subst hx
        simp [lookupIdx] at h
        subst h
        simp
      · simp only [lookupIdx, if_neg hx, Option.map_eq_some'] at h
        obtain ⟨i', hi', rfl⟩ := h
        obtain ⟨h1, h2⟩ := ih i' hi'
        refine ⟨by simpa using h1, ?_⟩
        intro j hj
        match j with
        | 0 => simpa using hx
        | j + 1 =>
            have := h2 j (by omega)
            simpa using this

theorem lookupIdx_append_self (l : List String) (n : String) (h : n ∉ l) :
    lookupIdx (l ++ [n]) n = some l.length := by
  induction l with
  | nil => simp [lookupIdx]
  | cons x xs ih =>
      simp only [List.mem_cons, not_or] at h
      have hx : ¬(x = n) := fun he => h.1 he.symm
      simp [lookupIdx, hx, ih h.2]

/-- C8: `getAttributeNameIndex` is pure lookup-or-append on the
attribute-name registry: a name already present returns the index of its
first occurrence and leaves the registry unchanged; a fresh name is
appended and gets the new last index; a repeated call returns the same
index with no further change; and a later distinct fresh name gets exactly
the successor index (so fresh names get 0, 1, 2, … in first-seen order and
nothing is ever removed). -/
theorem getAttributeNameIndex_contract (r : RState) (name : String) :
    (∀ i, lookupIdx r.attributeNames name = some i →
       getAttributeNameIndex r name = (r, i) ∧
       r.attributeNames[i]? = some name ∧
       ∀ j, j < i → r.attributeNames[j]? ≠ some name) ∧
    (name ∉ r.attributeNames →
       (getAttributeNameIndex r name).2 = r.attributeNames.length ∧
       (getAttributeNameIndex r name).1.attributeNames =
         r.attributeNames ++ [name]) ∧
    (getAttributeNameIndex (getAttributeNameIndex r name).1 name =
       ((getAttributeNameIndex r name).1, (getAttributeNameIndex r name).2)) ∧
    (∀ name2, name2 ≠ name → name2 ∉ r.attributeNames →
       name ∉ r.attributeNames →
       (getAttributeNameIndex (getAttributeNameIndex r name).1 name2).2 =
         (getAttributeNameIndex r name).2 + 1) := by
  refine ⟨?_, ?_, ?_, ?_⟩
  · intro i h
    obtain ⟨h1, h2⟩ := lookupIdx_first r.attributeNames name i h
    exact ⟨by simp [getAttributeNameIndex, h], h1, h2⟩
  · intro h
    have hn := (lookupIdx_eq_none r.attributeNames name).mpr h
    simp [getAttributeNameIndex, hn]
  · rcases hl : lookupIdx r.attributeNames name with _ | i
    · have h : name ∉ r.attributeNames := (lookupIdx_eq_none _ _).mp hl
      have h2 := lookupIdx_append_self r.attributeNames name h
      simp [getAttributeNameIndex, hl, h2]
    · simp [getAttributeNameIndex, hl]
  · intro name2 hne h2 h1
    have hn1 := (lookupIdx_eq_none r.attributeNames name).mpr h1
    have hn2 : name2 ∉ r.attributeNames ++ [name] := by
      simp [h2, hne]
    have hn2' := (lookupIdx_eq_none (r.attributeNames ++ [name]) name2).mpr hn2
    simp [getAttributeNameIndex, hn1, hn2']

/-- C8 witness: in a registry ["in_position", "in_normal"] the name
"in_normal" resolves to index 1 with no registry change. -/
theorem getAttributeNameIndex_contract_example :
    getAttributeNameIndex
        { exState with attributeNames := ["in_position", "in_normal"] }
        "in_normal" =
      ({ exState with attributeNames := ["in_position", "in_normal"] }, 1) :=
  ((getAttributeNameIndex_contract
      { exState with attributeNames := ["in_position", "in_normal"] }
      "in_normal").1 1 (by rfl)).1

/-- C3: `bindGeometry` is a no-op (no driver call, no state change) when
the target mesh is the memoised one; otherwise it tears down the previous
mesh's vertex layout against the previous mesh's own shader (when a
previous mesh exists), binds the new geometry's vertex and index buffers,
updates the memo to the new geometry and mesh, and sets up the new mesh's
layout against its own shader at its attribute-array offset. -/
theorem bindGeometry_contract (r : RState) (geom : Geometry) (mesh : Mesh) :
    (r.lastBindMesh.map Mesh.ptr = some mesh.ptr →
       bindGeometry r geom mesh = (r, [])) ∧
    (∀ prev, r.lastBindMesh = some prev → prev.ptr ≠ mesh.ptr →
       (bindGeometry r geom mesh).1 =
         { r with lastBindGeometry := some geom, lastBindMesh := some mesh } ∧
       (bindGeometry r geom mesh).2 =
         [.vtxDefEnd prev.vertexDefId prev.material.shader.ptr,
          .bindArrayBuffer geom.vertexBuffer,
          .bindElementArrayBuffer geom.indexBuffer,
          .vtxDefBegin mesh.vertexDefId mesh.material.shader.ptr
            mesh.attributeArrayOffset]) ∧
    (r.lastBindMesh = none →
       (bindGeometry r geom mesh).1 =
         { r with lastBindGeometry := some geom, lastBindMesh := some mesh } ∧
       (bindGeometry r geom mesh).2 =
         [.bindArrayBuffer geom.vertexBuffer,
          .bindElementArrayBuffer geom.indexBuffer,
          .vtxDefBegin mesh.vertexDefId mesh.material.shader.ptr
            mesh.attributeArrayOffset]) := by
  refine ⟨?_, ?_, ?_⟩
  · intro h
    simp [bindGeometry, h]
  · intro prev hp hne
    have hc : r.lastBindMesh.map Mesh.ptr ≠ some mesh.ptr := by
      simp [hp, hne]
    simp [bindGeometry, hc, hp, meshTeardown, hne]
  · intro h
    have hc : r.lastBindMesh.map Mesh.ptr ≠ some mesh.ptr := by
      simp [h]
    simp [bindGeometry, hc, h, meshTeardown]

/-- C3 witness: rebinding from `exMesh0` to `exMesh1` tears down mesh 0's
layout against mesh 0's shader, binds the buffers, and sets up mesh 1's
layout at its offset. -/
theorem bindGeometry_contract_example :
    (bindGeometry exStateBound exGeometry exMesh1).2 =
      [.vtxDefEnd 40 1, .bindArrayBuffer 11, .bindElementArrayBuffer 12,
       .vtxDefBegin 41 1 16] :=
  ((bindGeometry_contract exStateBound exGeometry exMesh1).2.1 exMesh0 rfl
    (by decide)).2

theorem countUseProgram_append (a b : List GLCall) :
    countUseProgram (a ++ b) = countUseProgram a + countUseProgram b :=
  List.countP_append ..

theorem countUseProgram_write (loc : Int) (v : UniformValue) :
    countUseProgram [writeCall loc v] = 0 := by
  cases v <;> rfl

theorem runSetUniforms_cons (r : RState)
    (c : Shader × String × Nat × UniformValue)
    (rest : List (Shader × String × Nat × UniformValue)) :
    runSetUniforms r (c :: rest) =
      ((runSetUniforms (setUniform r c.1 c.2.1 c.2.2.1 c.2.2.2).1 rest).1,
       (setUniform r c.1 c.2.1 c.2.2.1 c.2.2.2).2 ++
         (runSetUniforms (setUniform r c.1 c.2.1 c.2.2.1 c.2.2.2).1 rest).2) :=
  rfl

/-- When the cached program id already equals the shader's program, a
`setUniform` call issues no bind and leaves the cache unchanged. -/
theorem setUniform_no_bind (r : RState) (sh : Shader) (nm : String) (nh : Nat)
    (v : UniformValue) (h : r.lastProgramId = sh.getProgramId) :
    (setUniform r sh nm nh v).1.lastProgramId = r.lastProgramId ∧
    countUseProgram (setUniform r sh nm nh v).2 = 0 := by
  by_cases hloc : 0 ≤ sh.uniformLoc nm nh
  · simp [setUniform, hloc, h, countUseProgram_write]
  · simp [setUniform, hloc, countUseProgram]

/-- A whole sequence of `setUniform` calls targeting program `p` issues no
bind when the cache already holds `p`, and the cache stays at `p`. -/
theorem runSetUniforms_no_bind (p : Nat)
    (calls : List (Shader × String × Nat × UniformValue)) :
    ∀ r : RState, r.lastProgramId = p →
      (∀ c ∈ calls, c.1.getProgramId = p) →
      countUseProgram (runSetUniforms r calls).2 = 0 ∧
        (runSetUniforms r calls).1.lastProgramId = p := by
  induction calls with
  | nil => intro r h _; exact ⟨rfl, h⟩
  | cons c rest ih =>
      intro r h hcalls
      have hp : c.1.getProgramId = p := hcalls c (List.mem_cons_self ..)
      obtain ⟨h1, h2⟩ :=
        setUniform_no_bind r c.1 c.2.1 c.2.2.1 c.2.2.2 (by rw [h, hp])
      have hrest := ih (setUniform r c.1 c.2.1 c.2.2.1 c.2.2.2).1
        (by rw [h1, h]) (fun c hc => hcalls c (List.mem_cons_of_mem _ hc))
      rw [runSetUniforms_cons]
      refine ⟨?_, hrest.2⟩
      simp only [countUseProgram_append, h2, hrest.1]

/-- C1: over any sequence of `setUniform` calls (any overload) that all
target the same program id `p`, starting from a cached program id different
from `p`, the program-bind primitive `glUseProgram` is issued at most once
in the whole sequence. -/
theorem setUniform_binds_at_most_once (r : RState) (p : Nat)
    (calls : List (Shader × String × Nat × UniformValue)) :
    (∀ c ∈ calls, c.1.getProgramId = p) → r.lastProgramId ≠ p →
      countUseProgram (runSetUniforms r calls).2 ≤ 1 := by
  induction calls generalizing r with
  | nil => intro _ _; simp [runSetUniforms, countUseProgram]
  | cons c rest ih =>
      intro hcalls h0
      have hp : c.1.getProgramId = p := hcalls c (List.mem_cons_self ..)
      have hrest : ∀ x ∈ rest, x.1.getProgramId = p :=
        fun x hx => hcalls x (List.mem_cons_of_mem _ hx)
      rw [runSetUniforms_cons, countUseProgram_append]
      by_cases hloc : 0 ≤ c.1.uniformLoc c.2.1 c.2.2.1
      · have hne : r.lastProgramId ≠ c.1.getProgramId := by rw [hp]; exact h0
        have hfst : (setUniform r c.1 c.2.1 c.2.2.1 c.2.2.2).1.lastProgramId =
            c.1.getProgramId := by
          simp [setUniform, hloc, hne]
        have ht1 : countUseProgram (setUniform r c.1 c.2.1 c.2.2.1 c.2.2.2).2 = 1 := by
          have := countUseProgram_write (c.1.uniformLoc c.2.1 c.2.2.1) c.2.2.2
          simp [setUniform, hloc, hne, countUseProgram] at this ⊢
          exact this
        have h2 := (runSetUniforms_no_bind p rest
          (setUniform r c.1 c.2.1 c.2.2.1 c.2.2.2).1 (by rw [hfst, hp]) hrest).1
        omega
      · have hid : setUniform r c.1 c.2.1 c.2.2.1 c.2.2.2 = (r, []) := by
          simp [setUniform, hloc]
        rw [hid]
        simpa [countUseProgram] using ih r hrest h0

/-- C1 witness: two resolved `setUniform` calls (an int and a float
overload) on a shader with program id 5, starting from the fresh cache
sentinel, bind at most once. -/
theorem setUniform_binds_at_most_once_example :
    countUseProgram (runSetUniforms exState
      [(exShader, "u0", 3, .int 1), (exShader, "u1", 4, .float 2)]).2 ≤ 1 :=
  setUniform_binds_at_most_once exState 5
    [(exShader, "u0", 3, .int 1), (exShader, "u1", 4, .float 2)]
    (by
      intro c hc
      rcases List.mem_cons.mp hc with rfl | hc
      · rfl
      · rcases List.mem_cons.mp hc with rfl | hc
        · rfl
        · cases hc)
    (by decide)

/-- C2: every `setUniform` (and `setFixedCachedUniform`) call resolves its
location through the shader's cache; a negative location is a silent no-op
(no driver call, no renderer-state change); a non-negative location updates
the cached program id to the shader's program, emits a bind exactly when
the cached id differed, ends the trace with the uniform write, and — when
the driver state is coherent with the cache — the driver's current program
at the moment of the write is the shader's program. -/
theorem setUniform_location_contract (r : RState) (sh : Shader)
    (nm : String) (nh : Nat) (fname : Nat) (v : UniformValue) (g : GLState)
    (hg : g.currentProgram = r.lastProgramId) :
    (sh.uniformLoc nm nh < 0 → setUniform r sh nm nh v = (r, [])) ∧
    (0 ≤ sh.uniformLoc nm nh →
       (setUniform r sh nm nh v).1.lastProgramId = sh.getProgramId ∧
       countUseProgram (setUniform r sh nm nh v).2 =
         (if r.lastProgramId = sh.getProgramId then 0 else 1) ∧
       (setUniform r sh nm nh v).2.getLast? =
         some (writeCall (sh.uniformLoc nm nh) v) ∧
       (applyTrace g (setUniform r sh nm nh v).2.dropLast).currentProgram =
         sh.getProgramId) ∧
    (sh.fixedLoc fname < 0 → setFixedCachedUniform r sh fname v = (r, [])) ∧
    (0 ≤ sh.fixedLoc fname →
       (setFixedCachedUniform r sh fname v).1.lastProgramId =
         sh.getProgramId ∧
       (applyTrace g
           (setFixedCachedUniform r sh fname v).2.dropLast).currentProgram =
         sh.getProgramId) := by
  refine ⟨?_, ?_, ?_, ?_⟩
  · intro h
    have : ¬ 0 ≤ sh.uniformLoc nm nh := by omega
    simp [setUniform, this]
  · intro hloc
    by_cases heq : r.lastProgramId = sh.getProgramId
    · refine ⟨by simp [setUniform, hloc, heq], ?_, ?_, ?_⟩
      · simp [setUniform, hloc, heq, countUseProgram_write]
      · simp [setUniform, hloc, heq]
      · simp [setUniform, hloc, heq, applyTrace, hg]
    · refine ⟨by simp [setUniform, hloc, heq], ?_, ?_, ?_⟩
      · have := countUseProgram_write (sh.uniformLoc nm nh) v
        simp [setUniform, hloc, heq, countUseProgram] at this ⊢
        exact this
      · simp [setUniform, hloc, heq]
      · simp [setUniform, hloc, heq, applyTrace, GLState.applyCall]
  · intro h
    have : ¬ 0 ≤ sh.fixedLoc fname := by omega
    simp [setFixedCachedUniform, this]
  · intro hloc
    by_cases heq : r.lastProgramId = sh.getProgramId
    · exact ⟨by simp [setFixedCachedUniform, hloc, heq],
        by simp [setFixedCachedUniform, hloc, heq, applyTrace, hg]⟩
    · exact ⟨by simp [setFixedCachedUniform, hloc, heq],
        by simp [setFixedCachedUniform, hloc, heq, applyTrace, GLState.applyCall]⟩

/-- C2 witness: on a shader none of whose locations resolve, `setUniform`
is a silent no-op: same state, empty trace. -/
theorem setUniform_location_contract_example :
    setUniform exState exShaderNoLoc "u" 7 (.int 1) = (exState, []) :=
  (setUniform_location_contract exState exShaderNoLoc "u" 7 0 (.int 1) exGL
    rfl).1 (by decide)

theorem applyTrace_nil (g : GLState) : applyTrace g [] = g := rfl

theorem applyTrace_cons (g : GLState) (c : GLCall) (t : List GLCall) :
    applyTrace g (c :: t) = applyTrace (g.applyCall c) t := rfl

/-- Effect of the texture unbind loop on the driver state: every unit below
`n` holds texture 0 and the active unit is the last one touched. -/
theorem texUnbindBlock_apply (g : GLState) (n : Nat) :
    applyTrace g (texUnbindBlock n) =
      { g with
        activeTexture := if n = 0 then g.activeTexture else n - 1,
        textures := fun u => if u < n then 0 else g.textures u } := by
  induction n with
  | zero =>
      show g = _
      simp
  | succ n ih =>
      have hsplit : texUnbindBlock (n + 1) =
          texUnbindBlock n ++ [.activeTexture n, .bindTexture 0] := by
        simp [texUnbindBlock, List.range_succ]
      have htex : Function.update
          (fun u => if u < n then (0 : Nat) else g.textures u) n 0 =
          fun u => if u < n + 1 then 0 else g.textures u := by
        funext u
        by_cases hu : u = n
        · subst hu; simp [Function.update]
        · rcases Nat.lt_or_ge u n with h | h
          · simp [Function.update, hu, h, Nat.lt_succ_of_lt h]
          · have h1 : ¬ u < n := by omega
            have h2 : ¬ u < n + 1 := by omega
            simp [Function.update, hu, h1, h2]
      rw [hsplit, applyTrace_append, ih, applyTrace_cons, applyTrace_cons,
        applyTrace_nil]
      show GLState.mk g.currentProgram g.arrayBuffer g.elementArrayBuffer n
        (Function.update (fun u => if u < n then (0 : Nat) else g.textures u) n 0)
        g.boundVertexLayout = _
      rw [htex]
      simp

/-- Driver state after a `cleanup` trace: program, buffers and active unit
reset, all 16 texture units cleared, and the vertex layout torn down
exactly when a memoised binding was present. -/
theorem cleanup_trace_apply (r : RState) (g : GLState) :
    applyTrace g (cleanup r).2 =
      { currentProgram := 0, arrayBuffer := 0, elementArrayBuffer := 0,
        activeTexture := 0,
        textures := fun u => if u < 16 then 0 else g.textures u,
        boundVertexLayout :=
          if r.lastBindGeometry.isSome ∧ r.lastBindMesh.isSome then none
          else g.boundVertexLayout } := by
  rcases hG : r.lastBindGeometry with _ | geo <;>
    rcases hM : r.lastBindMesh with _ | m <;>
      simp only [cleanup, hG, hM, Option.isSome_none, Option.isSome_some,
        meshTeardown, if_true, if_false, Bool.false_eq_true, ite_false,
        ite_true, List.nil_append, applyTrace_append, applyTrace_cons,
        applyTrace_nil, texUnbindBlock_apply, GLState.applyCall] <;>
      simp [texUnbindBlock_apply, applyTrace_cons, applyTrace_nil,
        GLState.applyCall]

/-- C5: `cleanup` is idempotent.  A second `cleanup` right after a first one
leaves both the renderer state and the driver state exactly as the first
left them, and the second call performs no vertex-layout teardown (the
first call cleared the memo).  The state established by one `cleanup` is:
cleared memo, program 0, both buffers 0, all 16 texture units holding
texture 0, active unit 0. -/
theorem cleanup_idempotent (r : RState) (g : GLState) :
    (cleanup (cleanup r).1).1 = (cleanup r).1 ∧
    applyTrace (applyTrace g (cleanup r).2) (cleanup (cleanup r).1).2 =
      applyTrace g (cleanup r).2 ∧
    (∀ vid sp, GLCall.vtxDefEnd vid sp ∉ (cleanup (cleanup r).1).2) ∧
    (cleanup r).1.lastBindGeometry = none ∧
    (cleanup r).1.lastBindMesh = none ∧
    (applyTrace g (cleanup r).2).currentProgram = 0 ∧
    (applyTrace g (cleanup r).2).arrayBuffer = 0 ∧
    (applyTrace g (cleanup r).2).elementArrayBuffer = 0 ∧
    (applyTrace g (cleanup r).2).activeTexture = 0 ∧
    (∀ u, u < 16 → (applyTrace g (cleanup r).2).textures u = 0) := by
  refine ⟨rfl, ?_, ?_, rfl, rfl, ?_, ?_, ?_, ?_, ?_⟩
  · rw [cleanup_trace_apply, cleanup_trace_apply]
    simp only [GLState.mk.injEq]
    refine ⟨trivial, trivial, trivial, trivial, ?_, ?_⟩
    · funext u
      by_cases hu : u < 16 <;> simp [hu]
    · simp [cleanup]
  · intro vid sp h
    simp [cleanup, texUnbindBlock] at h
  · rw [cleanup_trace_apply]
  · rw [cleanup_trace_apply]
  · rw [cleanup_trace_apply]
  · rw [cleanup_trace_apply]
  · intro u hu
    rw [cleanup_trace_apply]
    simp [hu]

/-- C5 witness: one `cleanup` starting from a state with a memoised binding
yields the cleared memo, and a second `cleanup` reproduces the same
renderer state. -/
theorem cleanup_idempotent_example :
    (cleanup (cleanup exStateBound).1).1 = (cleanup exStateBound).1 ∧
    (cleanup exStateBound).1.lastBindMesh = none :=
  ⟨(cleanup_idempotent exStateBound exGL).1,
    (cleanup_idempotent exStateBound exGL).2.2.2.2.1⟩

/-- C4 (code bug): `cleanup` issues `glUseProgram(0)` but does not update
`m_last_program_id`.  Starting from a coherent state whose cached and
driver-side program are both 5, after `cleanup` the cache still says 5
while the driver's current program is 0 — the cache no longer matches the
driver state the operation established.  Consequently a following
`setUniform` on a shader with program id 5 skips the bind entirely and its
uniform write executes with program 0 current: the stale cache costs a
missed bind, not merely a redundant one. -/
theorem cleanup_stale_program_cache :
    (cleanup exState5).1.lastProgramId = 5 ∧
    (applyTrace exGL5 (cleanup exState5).2).currentProgram = 0 ∧
    (cleanup exState5).1.lastProgramId ≠
      (applyTrace exGL5 (cleanup exState5).2).currentProgram ∧
    countUseProgram (setUniform (cleanup exState5).1 exShader "u" 3 (.int 1)).2
      = 0 ∧
    (applyTrace (applyTrace exGL5 (cleanup exState5).2)
        (setUniform (cleanup exState5).1 exShader "u" 3 (.int 1)).2).currentProgram
      = 0 := by
  refine ⟨rfl, ?_, ?_, rfl, ?_⟩
  · rw [cleanup_trace_apply]
  · rw [cleanup_trace_apply]
    decide
  · rw [cleanup_trace_apply]
    rfl

/-- C7 (code bug): the constructor (lines 44–67) does not initialise
`m_render_device`; the field keeps whatever indeterminate value the memory
held (`initState`'s first parameter).  When that garbage is non-null,
`renderGame` — called before any `setRenderDevice` — dereferences it and
drives a full frame on it instead of being a no-op; only when the garbage
happens to be null is the call the no-op the spec requires. -/
theorem renderGame_uninitialized_device :
    (∀ d mv mp, (initState d mv mp).renderDevice = d) ∧
    (renderGame (initState (some ⟨7⟩) exMatQ exMatQ)).2.head? =
      some (.deviceBeginFrame 7) ∧
    (renderGame (initState none exMatQ exMatQ)).2 = [] :=
  ⟨fun _ _ _ => rfl, rfl, rfl⟩

theorem drawsOf_append (a b : List GLCall) :
    drawsOf (a ++ b) = drawsOf a ++ drawsOf b :=
  List.filterMap_append ..

theorem materialAppliesOf_append (a b : List GLCall) :
    materialAppliesOf (a ++ b) = materialAppliesOf a ++ materialAppliesOf b :=
  List.filterMap_append ..

/-- The three possible traces of a `setFixedCachedUniform` call. -/
theorem setFixedCachedUniform_trace (r : RState) (sh : Shader) (n : Nat)
    (v : UniformValue) :
    (setFixedCachedUniform r sh n v).2 = [] ∨
    (setFixedCachedUniform r sh n v).2 = [writeCall (sh.fixedLoc n) v] ∨
    (setFixedCachedUniform r sh n v).2 =
      [.useProgram sh.getProgramId, writeCall (sh.fixedLoc n) v] := by
  by_cases hloc : 0 ≤ sh.fixedLoc n
  · by_cases heq : r.lastProgramId ≠ sh.getProgramId
    · right; right; simp [setFixedCachedUniform, hloc, heq]
    · right; left; simp [setFixedCachedUniform, hloc, heq]
  · left; simp [setFixedCachedUniform, hloc]

theorem setFixedCachedUniform_draws (r : RState) (sh : Shader) (n : Nat)
    (v : UniformValue) :
    drawsOf (setFixedCachedUniform r sh n v).2 = [] := by
  rcases setFixedCachedUniform_trace r sh n v with h | h | h <;> rw [h] <;>
    cases v <;> rfl

theorem setFixedCachedUniform_materials (r : RState) (sh : Shader) (n : Nat)
    (v : UniformValue) :
    materialAppliesOf (setFixedCachedUniform r sh n v).2 = [] := by
  rcases setFixedCachedUniform_trace r sh n v with h | h | h <;> rw [h] <;>
    cases v <;> rfl

theorem setFixedCachedUniform_lastBindGeometry (r : RState) (sh : Shader)
    (n : Nat) (v : UniformValue) :
    (setFixedCachedUniform r sh n v).1.lastBindGeometry = r.lastBindGeometry := by
  by_cases hloc : 0 ≤ sh.fixedLoc n <;>
    by_cases heq : r.lastProgramId ≠ sh.getProgramId <;>
      simp [setFixedCachedUniform, hloc, heq]

theorem setFixedCachedUniform_lastBindMesh (r : RState) (sh : Shader)
    (n : Nat) (v : UniformValue) :
    (setFixedCachedUniform r sh n v).1.lastBindMesh = r.lastBindMesh := by
  by_cases hloc : 0 ≤ sh.fixedLoc n <;>
    by_cases heq : r.lastProgramId ≠ sh.getProgramId <;>
      simp [setFixedCachedUniform, hloc, heq]

theorem applyShader_draws (r : RState) (sh : Shader) (c : Nat) :
    drawsOf (applyShader r sh c).2.2 = [] := by
  simp only [applyShader, drawsOf_append, setFixedCachedUniform_draws]
  rfl

theorem applyShader_materials (r : RState) (sh : Shader) (c : Nat) :
    materialAppliesOf (applyShader r sh c).2.2 = [] := by
  simp only [applyShader, materialAppliesOf_append,
    setFixedCachedUniform_materials]
  rfl

theorem applyShader_lastBindGeometry (r : RState) (sh : Shader) (c : Nat) :
    (applyShader r sh c).1.lastBindGeometry = r.lastBindGeometry := by
  simp [applyShader, setFixedCachedUniform_lastBindGeometry]

theorem applyShader_lastBindMesh (r : RState) (sh : Shader) (c : Nat) :
    (applyShader r sh c).1.lastBindMesh = r.lastBindMesh := by
  simp [applyShader, setFixedCachedUniform_lastBindMesh]

/-- The two possible traces of `bindGeometry`. -/
theorem bindGeometry_trace (r : RState) (geom : Geometry) (mesh : Mesh) :
    (bindGeometry r geom mesh).2 = [] ∨
    (bindGeometry r geom mesh).2 =
      meshTeardown r.lastBindMesh ++
        [.bindArrayBuffer geom.vertexBuffer,
         .bindElementArrayBuffer geom.indexBuffer,
         .vtxDefBegin mesh.vertexDefId mesh.material.shader.ptr
           mesh.attributeArrayOffset] := by
  unfold bindGeometry
  split
  · right; rfl
  · left; rfl

theorem bindGeometry_draws (r : RState) (geom : Geometry) (mesh : Mesh) :
    drawsOf (bindGeometry r geom mesh).2 = [] := by
  rcases bindGeometry_trace r geom mesh with h | h <;> rw [h]
  · rfl
  · rcases hM : r.lastBindMesh with _ | prev <;> rfl

theorem bindGeometry_materials (r : RState) (geom : Geometry) (mesh : Mesh) :
    materialAppliesOf (bindGeometry r geom mesh).2 = [] := by
  rcases bindGeometry_trace r geom mesh with h | h <;> rw [h]
  · rfl
  · rcases hM : r.lastBindMesh with _ | prev <;> rfl

theorem materialApply_draws (r : RState) (mat : Material) :
    drawsOf (materialApply r mat).2.2 = [] := by
  show drawsOf (GLCall.applyMaterial mat.id ::
    (applyShader r mat.shader mat.combination).2.2) = []
  have h := applyShader_draws r mat.shader mat.combination
  simpa [drawsOf, List.filterMap_cons] using h

theorem materialApply_materials (r : RState) (mat : Material) :
    materialAppliesOf (materialApply r mat).2.2 = [mat.id] := by
  show materialAppliesOf (GLCall.applyMaterial mat.id ::
    (applyShader r mat.shader mat.combination).2.2) = [mat.id]
  have h := applyShader_materials r mat.shader mat.combination
  simpa [materialAppliesOf, List.filterMap_cons] using h

theorem renderModelMesh_collect (geom : Geometry) (tf : Matrix4 Rat)
    (r : RState) (mesh : Mesh) :
    drawsOf (renderModelMesh geom tf r mesh).2 =
      [(mesh.indicesOffset, mesh.indexCount)] ∧
    materialAppliesOf (renderModelMesh geom tf r mesh).2 =
      [mesh.material.id] := by
  constructor
  · simp only [renderModelMesh, drawsOf_append, materialApply_draws,
      setFixedCachedUniform_draws, bindGeometry_draws]
    rfl
  · simp only [renderModelMesh, materialAppliesOf_append,
      materialApply_materials, setFixedCachedUniform_materials,
      bindGeometry_materials]
    rfl

theorem renderModelGo_cons (geom : Geometry) (tf : Matrix4 Rat) (r : RState)
    (m : Mesh) (ms : List Mesh) :
    renderModelGo geom tf r (m :: ms) =
      ((renderModelGo geom tf (renderModelMesh geom tf r m).1 ms).1,
       (renderModelMesh geom tf r m).2 ++
         (renderModelGo geom tf (renderModelMesh geom tf r m).1 ms).2) :=
  rfl

theorem renderModelGo_collect (geom : Geometry) (tf : Matrix4 Rat)
    (ms : List Mesh) :
    ∀ r : RState,
      drawsOf (renderModelGo geom tf r ms).2 =
        ms.map (fun m => (m.indicesOffset, m.indexCount)) ∧
      materialAppliesOf (renderModelGo geom tf r ms).2 =
        ms.map (fun m => m.material.id) := by
  induction ms with
  | nil => intro r; simp [renderModelGo, drawsOf, materialAppliesOf]
  | cons m ms ih =>
      intro r
      rw [renderModelGo_cons]
      obtain ⟨hd, hm⟩ := renderModelMesh_collect geom tf r m
      obtain ⟨hd2, hm2⟩ := ih (renderModelMesh geom tf r m).1
      simp [drawsOf_append, materialAppliesOf_append, hd, hm, hd2, hm2]

/-- C6: `renderModel` on a not-ready model is a complete no-op: unchanged
renderer state and an empty trace (so zero draws, zero material
applications, zero shader binds).  On a ready model it processes the meshes
in declaration order: the draws of the emitted trace are exactly one
indexed draw per mesh with that mesh's index offset and count, in order,
and the material applications are exactly the meshes' materials, in
order. -/
theorem renderModel_contract (r : RState) (model : Model) (tf : Matrix4 Rat)
    (p : Nat) :
    (model.ready = false → renderModel r model tf p = (r, [])) ∧
    (model.ready = true →
       drawsOf (renderModel r model tf p).2 =
         model.meshes.map (fun m => (m.indicesOffset, m.indexCount)) ∧
       materialAppliesOf (renderModel r model tf p).2 =
         model.meshes.map (fun m => m.material.id)) := by
  constructor
  · intro h; simp [renderModel, h]
  · intro h
    simp only [renderModel, h, if_true]
    exact renderModelGo_collect model.geometry tf model.meshes r

/-- C6 witness: rendering the ready two-mesh `exModel` issues exactly the
two draws (offset 0 count 6, then offset 6 count 9) in declaration order. -/
theorem renderModel_contract_example :
    drawsOf (renderModel exState exModel exMatQ 0).2 = [(0, 6), (6, 9)] :=
  ((renderModel_contract exState exModel exMatQ 0).2 rfl).1

theorem memoOk_of_fields {r r' : RState}
    (hg : r'.lastBindGeometry = r.lastBindGeometry)
    (hm : r'.lastBindMesh = r.lastBindMesh) (h : memoOk r) : memoOk r' := by
  unfold memoOk at *
  rw [hg, hm]
  exact h

theorem setUniform_memo_fields (r : RState) (sh : Shader) (nm : String)
    (nh : Nat) (v : UniformValue) :
    (setUniform r sh nm nh v).1.lastBindGeometry = r.lastBindGeometry ∧
    (setUniform r sh nm nh v).1.lastBindMesh = r.lastBindMesh := by
  by_cases hloc : 0 ≤ sh.uniformLoc nm nh <;>
    by_cases heq : r.lastProgramId ≠ sh.getProgramId <;>
      simp [setUniform, hloc, heq]

theorem bindGeometry_memoOk (r : RState) (geom : Geometry) (mesh : Mesh)
    (h : memoOk r) : memoOk (bindGeometry r geom mesh).1 := by
  by_cases hc : r.lastBindMesh.map Mesh.ptr ≠ some mesh.ptr
  · simp [bindGeometry, hc, memoOk]
  · simpa [bindGeometry, hc, memoOk] using h

theorem cleanup_memoOk (r : RState) : memoOk (cleanup r).1 := by
  simp [cleanup, memoOk]

theorem materialApply_memo_fields (r : RState) (mat : Material) :
    (materialApply r mat).1.lastBindGeometry = r.lastBindGeometry ∧
    (materialApply r mat).1.lastBindMesh = r.lastBindMesh := by
  constructor <;>
    simp [materialApply, applyShader_lastBindGeometry, applyShader_lastBindMesh]

theorem renderModelMesh_memoOk (geom : Geometry) (tf : Matrix4 Rat)
    (r : RState) (mesh : Mesh) (h : memoOk r) :
    memoOk (renderModelMesh geom tf r mesh).1 := by
  simp only [renderModelMesh]
  apply bindGeometry_memoOk
  apply memoOk_of_fields (setFixedCachedUniform_lastBindGeometry ..)
    (setFixedCachedUniform_lastBindMesh ..)
  exact memoOk_of_fields (materialApply_memo_fields r mesh.material).1
    (materialApply_memo_fields r mesh.material).2 h

theorem renderModelGo_memoOk (geom : Geometry) (tf : Matrix4 Rat)
    (ms : List Mesh) :
    ∀ r : RState, memoOk r → memoOk (renderModelGo geom tf r ms).1 := by
  induction ms with
  | nil => intro r h; exact h
  | cons m ms ih =>
      intro r h
      rw [renderModelGo_cons]
      exact ih _ (renderModelMesh_memoOk geom tf r m h)

/-- C10: the two fields of the geometry/mesh binding memo are null together
or set together.  The invariant holds after construction and is preserved
by every operation of the renderer (each either leaves both fields alone,
sets both, or clears both); in particular it implies that when the cached
geometry is set the cached mesh is set too, which is what makes `cleanup`'s
unconditional mesh dereference after its geometry-only null check safe. -/
theorem binding_memo_invariant :
    (∀ d mv mp, memoOk (initState d mv mp)) ∧
    (∀ r sh nm nh v, memoOk r → memoOk (setUniform r sh nm nh v).1) ∧
    (∀ r sh n v, memoOk r → memoOk (setFixedCachedUniform r sh n v).1) ∧
    (∀ r sh c, memoOk r → memoOk (applyShader r sh c).1) ∧
    (∀ r geom mesh, memoOk r → memoOk (bindGeometry r geom mesh).1) ∧
    (∀ r, memoOk (cleanup r).1) ∧
    (∀ r d, memoOk (render r d).1) ∧
    (∀ r, memoOk r → memoOk (renderGame r).1) ∧
    (∀ r model tf p, memoOk r → memoOk (renderModel r model tf p).1) ∧
    (∀ r nm, memoOk r → memoOk (getAttributeNameIndex r nm).1) ∧
    (∀ r d, memoOk r → memoOk (setRenderDevice r d)) ∧
    (∀ r h, memoOk r → memoOk (setPass r h)) ∧
    (∀ r m, memoOk r → memoOk (setViewMatrix r m)) ∧
    (∀ r m, memoOk r → memoOk (setProjectionMatrix r m)) ∧
    (∀ r b, memoOk r → memoOk (setEditorWireframe r b)) ∧
    (∀ r, memoOk r → r.lastBindGeometry.isSome → r.lastBindMesh.isSome) := by
  refine ⟨?_, ?_, ?_, ?_, ?_, ?_, ?_, ?_, ?_, ?_, ?_, ?_, ?_, ?_, ?_, ?_⟩
  · intro d mv mp; simp [initState, memoOk]
  · intro r sh nm nh v h
    exact memoOk_of_fields (setUniform_memo_fields r sh nm nh v).1
      (setUniform_memo_fields r sh nm nh v).2 h
  · intro r sh n v h
    exact memoOk_of_fields (setFixedCachedUniform_lastBindGeometry ..)
      (setFixedCachedUniform_lastBindMesh ..) h
  · intro r sh c h
    exact memoOk_of_fields (applyShader_lastBindGeometry ..)
      (applyShader_lastBindMesh ..) h
  · exact bindGeometry_memoOk
  · exact cleanup_memoOk
  · intro r d; exact cleanup_memoOk r
  · intro r h
    rcases hd : r.renderDevice with _ | d
    · simpa [renderGame, hd] using h
    · simpa [renderGame, hd, render] using cleanup_memoOk r
  · intro r model tf p h
    by_cases hr : model.ready = true
    · simp only [renderModel, hr, if_true]
      exact renderModelGo_memoOk model.geometry tf model.meshes r h
    · simp only [renderModel, hr, if_false]
      exact h
  · intro r nm h
    rcases hl : lookupIdx r.attributeNames nm with _ | i <;>
      simpa [getAttributeNameIndex, hl, memoOk] using h
  · intro r d h; simpa [setRenderDevice, memoOk] using h
  · intro r p h; simpa [setPass, memoOk] using h
  · intro r m h; simpa [setViewMatrix, memoOk] using h
  · intro r m h; simpa [setProjectionMatrix, memoOk] using h
  · intro r b h; simpa [setEditorWireframe, memoOk] using h
  · intro r h hg
    unfold memoOk at h
    rw [← h]
    exact hg

/-- C10 witness: binding `exMesh0` on a fresh state keeps the memo fields
null-together-or-set-together. -/
theorem binding_memo_invariant_example :
    memoOk (bindGeometry exState exGeometry exMesh0).1 :=
  binding_memo_invariant.2.2.2.2.1 exState exGeometry exMesh0 (by decide)

/-- C9: `getProjectionMatrix` produces exactly the matrix the spec's
formula describes — the code's `1/tanf(degreesToRadians(fov)*0.5f)` equals
the spec's `1/tan(fov/2 in radians)` and all sixteen entries coincide,
identity entries included.  In particular for fov = 90°, width = height = 1,
near = 0.1, far = 100: `m22 = 1/tan(45°) = 1`, `m44 = 0`, `m34 = -1`, and
the off-diagonal entries keep their identity values. -/
theorem getProjectionMatrix_matches_spec :
    (∀ fov width height nearPlane farPlane : Real,
       getProjectionMatrix fov width height nearPlane farPlane =
         specProjectionMatrix fov width height nearPlane farPlane) ∧
    (getProjectionMatrix 90 1 1 (1 / 10) 100).m22 = 1 ∧
    (getProjectionMatrix 90 1 1 (1 / 10) 100).m44 = 0 ∧
    (getProjectionMatrix 90 1 1 (1 / 10) 100).m34 = -1 ∧
    (getProjectionMatrix 90 1 1 (1 / 10) 100).m12 = Matrix4.identity.m12 ∧
    (getProjectionMatrix 90 1 1 (1 / 10) 100).m21 = Matrix4.identity.m21 := by
  have htan : Real.tan (degreesToRadians 90 * 0.5) = 1 := by
    have h90 : degreesToRadians 90 * 0.5 = Real.pi / 4 := by
      unfold degreesToRadians
      ring
    rw [h90, Real.tan_pi_div_four]
  refine ⟨?_, ?_, rfl, rfl, rfl, rfl⟩
  · intro fov w h n f
    have harg : degreesToRadians fov * 0.5 = degreesToRadians fov / 2 := by
      ring
    unfold getProjectionMatrix specProjectionMatrix
    rw [harg]
  · show (1 : Real) / Real.tan (degreesToRadians 90 * 0.5) = 1
    rw [htan]
    norm_num

end LumixSpec
